import Mathlib

/-!
Shallow embedding of the realtime generation session layer of the
`nosis` desktop client (`desktop_gui/core/app_state.py`,
`desktop_gui/bridge/ws_client.py`, `desktop_gui/bridge/grpc_client.py`,
`desktop_gui/bridge/auth_bridge.py`), together with theorems settling
the spec's claims about it.

Python floats carrying progress values are embedded as rationals
(all values occurring in the code and claims are exact decimals);
Python `Optional[str]` becomes `Option String`; the dataclass
`**{**old.__dict__, **kwargs}` merge in `AppState.set_generation`
becomes an explicit record update of exactly the keyword fields.
Qt signal emissions have no effect on the stored state and are modelled
only where a claim counts them (the auth bridge's logout event).
-/

namespace Nosis

/-- Embeds dataclass `UserState` of `desktop_gui/core/app_state.py`
with its field defaults. -/
structure UserState where
  user_id : Option String := none
  username : Option String := none
  plan : String := "free"
  authenticated : Bool := false
deriving DecidableEq

/-- Embeds dataclass `ProjectState` of `desktop_gui/core/app_state.py`. -/
structure ProjectState where
  project_id : Option String := none
  title : String := "Untitled Project"
  dirty : Bool := false
  mode : String := "simple"
deriving DecidableEq

/-- Embeds dataclass `GenerationState` of `desktop_gui/core/app_state.py`:
`in_progress : bool = False`, `progress : float = 0.0`,
`last_error : Optional[str] = None`. -/
structure GenerationState where
  in_progress : Bool := false
  progress : Rat := 0
  last_error : Option String := none
deriving DecidableEq

/-- Embeds dataclass `BackendState` of `desktop_gui/core/app_state.py`. -/
structure BackendState where
  connected : Bool := false
  latency_ms : Option Int := none
deriving DecidableEq

/-- Embeds dataclass `UIFlags` of `desktop_gui/core/app_state.py`. -/
structure UIFlags where
  dark_mode : Bool := true
  sidebar_collapsed : Bool := false
  inspector_visible : Bool := true
deriving DecidableEq

/-- Embeds the mutable fields of class `AppState`
(`desktop_gui/core/app_state.py`): the five immutable sub-record
snapshots guarded by the mutex. -/
structure AppState where
  user : UserState := {}
  project : ProjectState := {}
  generation : GenerationState := {}
  backend : BackendState := {}
  ui_flags : UIFlags := {}
deriving DecidableEq

/-- The state `AppState.__init__` constructs: every sub-record at its
dataclass defaults. -/
def initialAppState : AppState := {}

/-- Embeds `AppState.set_generation(**kwargs)` after the kwargs merge:
the generation sub-record is replaced wholesale, every other sub-record
is untouched. -/
def set_generation (s : AppState) (g : GenerationState) : AppState :=
  { s with generation := g }

/-- Embeds `AppState.start_generation`:
`set_generation(in_progress=True, progress=0.0, last_error=None)`. -/
def start_generation (s : AppState) : AppState :=
  set_generation s { in_progress := true, progress := 0, last_error := none }

/-- Embeds `AppState.update_generation_progress(value)`:
`set_generation(progress=value)` — the other two generation fields are
carried over by the kwargs merge. -/
def update_generation_progress (value : Rat) (s : AppState) : AppState :=
  set_generation s { s.generation with progress := value }

/-- Embeds `AppState.finish_generation`:
`set_generation(in_progress=False, progress=1.0)` — `last_error` is
carried over by the kwargs merge. -/
def finish_generation (s : AppState) : AppState :=
  set_generation s { s.generation with in_progress := false, progress := 1 }

/-- Embeds `AppState.fail_generation(error)`:
`set_generation(in_progress=False, last_error=error)` — `progress` is
carried over by the kwargs merge. -/
def fail_generation (error : String) (s : AppState) : AppState :=
  set_generation s { s.generation with in_progress := false, last_error := some error }

/-- Embeds the decoded inbound frame of
`WebSocketClient._handle_message` (`desktop_gui/bridge/ws_client.py`):
a JSON object whose `type` field selects the branch.  `progress` may
lack its `value` field (`data.get("value", 0.0)`), `error` may lack its
`error` field (`data.get("error", "Unknown error")`); a frame whose
`type` matches no branch (including `ping` or a missing `type`) falls
through every `elif` and is the `other` variant. -/
inductive WsMsg where
  | progress (value : Option Rat)
  | preview
  | status
  | error (err : Option String)
  | completed
  | other
deriving DecidableEq

/-- Embeds `WebSocketClient._handle_message` after JSON decoding
(a frame that fails `json.loads` is logged and dropped, i.e. behaves as
`other`): its effect on the shared `AppState`.  Signal emissions carry
no state. -/
def handle_message (m : WsMsg) (s : AppState) : AppState :=
  match m with
  | .progress value => update_generation_progress (value.getD 0) s
  | .preview => s
  | .status => s
  | .error err => fail_generation (err.getD "Unknown error") s
  | .completed => finish_generation s
  | .other => s

/-- Embeds the decoded stream message of
`GRPCGenerationClient._handle_stream_message`
(`desktop_gui/bridge/grpc_client.py`): branches `progress`, `preview`,
`error` (which raises `RuntimeError(message.get("error"))`); any other
`type` falls through. -/
inductive GrpcMsg where
  | progress (value : Option Rat)
  | preview
  | error (err : Option String)
  | other
deriving DecidableEq

/-- The text `str(exc)` captures for `RuntimeError(message.get("error"))`:
the error string itself, or `"None"` when the frame lacked the field. -/
def grpcErrorText (err : Option String) : String :=
  err.getD "None"

/-- Embeds `GRPCGenerationClient._handle_stream_message`: either an
updated state or the text of the `RuntimeError` the `error` branch
raises. -/
def handle_stream_message (m : GrpcMsg) (s : AppState) : Except String AppState :=
  match m with
  | .progress value => .ok (update_generation_progress (value.getD 0) s)
  | .preview => .ok s
  | .error err => .error (grpcErrorText err)
  | .other => .ok s

/-- One event observed while `generate` consumes its stream: either the
next decoded message, or an `asyncio.CancelledError` delivered at the
await point before that message. -/
inductive GrpcEvent where
  | msg (m : GrpcMsg)
  | cancel
deriving DecidableEq

/-- How a `generate()` call returns to its caller: the final result
(`return result`), the re-raised `asyncio.CancelledError`, or the
re-raised exception text after `fail_generation`. -/
inductive GenOutcome where
  | completed
  | cancelled
  | failed (msg : String)
deriving DecidableEq

/-- Embeds the `try` body and `except` clauses of
`GRPCGenerationClient.generate` around stream consumption
(`_run_generation_stream`): each message is dispatched through
`_handle_stream_message`; a raised `RuntimeError` is caught by
`except Exception` which applies `fail_generation` and re-raises; an
`asyncio.CancelledError` is caught by its own clause which emits a
signal and re-raises without touching the state; exhausting the stream
applies `finish_generation` and returns. -/
def streamLoop (events : List GrpcEvent) (s : AppState) : AppState × GenOutcome :=
  match events with
  | [] => (finish_generation s, .completed)
  | .cancel :: _ => (s, .cancelled)
  | .msg m :: rest =>
    match handle_stream_message m s with
    | .ok s2 => streamLoop rest s2
    | .error e => (fail_generation e s, .failed e)

/-- Embeds `GRPCGenerationClient.generate(request)` as a function of the
events its stream delivers: `connect()` and the signal emissions touch
no `AppState` field; then `start_generation` runs, then the stream is
consumed. -/
def generate (events : List GrpcEvent) (s : AppState) : AppState × GenOutcome :=
  streamLoop events (start_generation s)

/-- One generation-domain mutation of `AppState`, the four high-level
actions of `desktop_gui/core/app_state.py`. -/
inductive GenOp where
  | start
  | update (value : Rat)
  | finish
  | fail (error : String)
deriving DecidableEq

/-- Applies one generation-domain mutation. -/
def applyGenOp (op : GenOp) (s : AppState) : AppState :=
  match op with
  | .start => start_generation s
  | .update value => update_generation_progress value s
  | .finish => finish_generation s
  | .fail error => fail_generation error s

/-- Applies a sequence of generation-domain mutations left to right. -/
def applyGenOps (ops : List GenOp) (s : AppState) : AppState :=
  ops.foldl (fun t op => applyGenOp op t) s

/-- Modelled from the spec: the `generationStatus` enum
`{Idle, Requested, Streaming, Completed, Failed, Cancelled}` of the
spec's SessionState.  The code's `GenerationState` has no such field;
only the statuses the four store mutations produce appear here. -/
inductive GenStatus where
  | Idle
  | Streaming
  | Completed
  | Failed
deriving DecidableEq

/-- Modelled from the spec: the status each store mutation leaves the
session in — `startGeneration` → Streaming, `updateProgress` keeps the
status, `completeGeneration` → Completed, `failGeneration` → Failed. -/
def statusAfterOp (op : GenOp) (st : GenStatus) : GenStatus :=
  match op with
  | .start => .Streaming
  | .update _ => st
  | .finish => .Completed
  | .fail _ => .Failed

/-- Modelled from the spec: the status after a mutation sequence,
starting from Idle. -/
def statusAfterOps (ops : List GenOp) : GenStatus :=
  ops.foldl (fun st op => statusAfterOp op st) .Idle

/-- Embeds the mutable fields of class `AuthBridge`
(`desktop_gui/bridge/auth_bridge.py`) that its refresh loop touches,
together with the shared `AppState` and a count of
`user_logged_out` signal emissions. -/
structure AuthBridgeState where
  access_token : Option String := none
  refresh_token : Option String := none
  app : AppState := {}
  logout_events : Nat := 0
deriving DecidableEq

/-- Python truthiness of `self._refresh_token` in
`if not self._refresh_token: return`: `None` and the empty string are
falsy. -/
def tokenFalsy (tok : Option String) : Bool :=
  match tok with
  | none => true
  | some t => t = ""

/-- The outcome of one credential exchange
(`POST /auth/refresh`): the new access token, or the exception text. -/
inductive ExchangeResult where
  | ok (access_token : String)
  | err (msg : String)
deriving DecidableEq

/-- Embeds `AuthBridge._clear_auth_state`: both tokens to `None`, the
refresh task cancelled, and
`set_user(authenticated=False, username=None, plan="free")` (the kwargs
merge keeps `user_id`). -/
def clear_auth_state (st : AuthBridgeState) : AuthBridgeState :=
  { st with
    access_token := none
    refresh_token := none
    app := { st.app with
      user := { st.app.user with
        authenticated := false
        username := none
        plan := "free" } } }

/-- Embeds `AuthBridge._refresh_loop` as a function of the exchange
outcomes its successive iterations observe.  Each iteration sleeps,
returns silently if the refresh token is falsy, otherwise exchanges it:
on success the access token is replaced and the loop continues; on any
exception the loop emits `user_logged_out`, runs `_clear_auth_state`,
and terminates without consuming further outcomes.  An empty outcome
list models a loop still parked in its sleep. -/
def refresh_loop (outcomes : List ExchangeResult) (st : AuthBridgeState) :
    AuthBridgeState :=
  match outcomes with
  | [] => st
  | o :: rest =>
    if tokenFalsy st.refresh_token then st
    else
      match o with
      | .ok tok => refresh_loop rest { st with access_token := some tok }
      | .err _ =>
        clear_auth_state { st with logout_events := st.logout_events + 1 }

/-- A snapshot with no job in flight (`in_progress = false`) and a
non-zero stored progress, as left behind by an earlier job. -/
def idleSnapshot : AppState :=
  { initialAppState with
    generation := { in_progress := false, progress := 1/5, last_error := none } }

/-- A snapshot with a first job in flight (`in_progress = true`,
progress 0.7). -/
def busySnapshot : AppState :=
  { initialAppState with
    generation := { in_progress := true, progress := 7/10, last_error := none } }

/-- A snapshot with a job in flight at progress 0.3. -/
def streamingSnapshot : AppState :=
  { initialAppState with
    generation := { in_progress := true, progress := 3/10, last_error := none } }

/-- A `generate()` run that receives one progress frame (value 0.4) and
is then cancelled mid-stream. -/
def cancelledRun : AppState × GenOutcome :=
  generate [GrpcEvent.msg (GrpcMsg.progress (some (2/5))), GrpcEvent.cancel]
    initialAppState

/-- An authenticated auth-bridge state: both tokens present, no logout
emitted yet. -/
def witnessAuthState : AuthBridgeState :=
  { access_token := some "t1"
    refresh_token := some "r1"
    app := initialAppState
    logout_events := 0 }

/-- The invariant of claim C7 as the code maintains it: a recorded
error implies no job is marked in progress. -/
def lastErrorGuarded (s : AppState) : Prop :=
  s.generation.last_error ≠ none → s.generation.in_progress = false

/-- Claim C4: `finish_generation` is idempotent — applying it twice from
any session state yields exactly the same snapshot as applying it once,
and that snapshot has `in_progress = false` (the code's Completed status)
and `progress = 1.0`. -/
theorem finish_generation_idempotent (s : AppState) :
    finish_generation (finish_generation s) = finish_generation s ∧
    (finish_generation s).generation.in_progress = false ∧
    (finish_generation s).generation.progress = 1 := by
  refine ⟨rfl, rfl, rfl⟩

/-- Counterexample to claim C1: from a snapshot with `in_progress = false`
and stored progress 0.2, `update_generation_progress 0.5` changes the
stored progress — the call is a mutation, not a no-op. -/
theorem update_progress_not_a_noop_when_idle_cex :
    idleSnapshot.generation.in_progress = false ∧
    (update_generation_progress (1/2) idleSnapshot).generation.progress ≠
      idleSnapshot.generation.progress := by
  refine ⟨rfl, ?_⟩
  show (1/2 : Rat) ≠ 1/5
  norm_num

/-- Claim C1 as amended: `update_generation_progress v` never raises and
unconditionally stores `v` as the progress, whatever the generation
status; `in_progress` and `last_error` are carried over unchanged. -/
theorem update_progress_unconditional (value : Rat) (s : AppState) :
    (update_generation_progress value s).generation.progress = value ∧
    (update_generation_progress value s).generation.in_progress =
      s.generation.in_progress ∧
    (update_generation_progress value s).generation.last_error =
      s.generation.last_error :=
  ⟨rfl, rfl, rfl⟩

/-- Counterexample to claim C2: a `generate()` call issued while
`busySnapshot` has a job in flight is not rejected — it runs to its
normal completion outcome and overwrites the first job's generation
record. -/
theorem generate_no_busy_guard_cex :
    (generate [] busySnapshot).2 = GenOutcome.completed ∧
    (generate [] busySnapshot).1.generation.in_progress = false ∧
    busySnapshot.generation.in_progress = true ∧
    (generate [] busySnapshot).1.generation ≠ busySnapshot.generation := by
  refine ⟨rfl, rfl, rfl, fun h => ?_⟩
  exact absurd (congrArg GenerationState.in_progress h) (by decide)

/-- Claim C2 as amended: `generate` performs no busy check — its entire
behaviour is independent of the generation record found in the store,
because `start_generation` overwrites that record before the stream is
consumed.  A second call therefore proceeds exactly as a first call
would, clobbering the in-flight job's state. -/
theorem generate_ignores_prior_generation (events : List GrpcEvent)
    (s : AppState) (g : GenerationState) :
    generate events { s with generation := g } = generate events s :=
  rfl

/-- Counterexample to claim C3: a run cancelled mid-stream propagates
the cancellation outcome, but the store still holds
`in_progress = true` with the mid-stream progress — no transition to
any terminal Cancelled state happened (the code's `GenerationState` has
no such state to transition to). -/
theorem cancel_leaves_store_streaming_cex :
    cancelledRun.2 = GenOutcome.cancelled ∧
    cancelledRun.1.generation.in_progress = true ∧
    cancelledRun.1.generation =
      { in_progress := true, progress := 2/5, last_error := none } := by
  exact ⟨rfl, rfl, rfl⟩

/-- Claim C3 as amended: cancellation stops stream consumption at the
point it arrives and propagates the distinct cancellation outcome to
the caller (not a generic failure, and `fail_generation` is never
applied), but the store is left exactly as it was — no mutation, hence
no Cancelled state. -/
theorem cancel_stops_stream_without_mutation (rest : List GrpcEvent)
    (s : AppState) :
    streamLoop (GrpcEvent.cancel :: rest) s = (s, GenOutcome.cancelled) :=
  rfl

/-- A cancelled stream run leaves `in_progress` as it found it set by
the surrounding job: if the state entering the loop is marked in
progress, the state at the cancellation point still is. -/
theorem streamLoop_cancelled_in_progress (events : List GrpcEvent)
    (s : AppState) (hs : s.generation.in_progress = true)
    (hc : (streamLoop events s).2 = GenOutcome.cancelled) :
    (streamLoop events s).1.generation.in_progress = true := by
  induction events generalizing s with
  | nil => simp [streamLoop] at hc
  | cons e rest ih =>
    cases e with
    | cancel => simpa [streamLoop] using hs
    | msg m =>
      cases m with
      | progress value =>
        simp only [streamLoop, handle_stream_message] at hc ⊢
        exact ih _ hs hc
      | preview =>
        simp only [streamLoop, handle_stream_message] at hc ⊢
        exact ih _ hs hc
      | error err => simp [streamLoop, handle_stream_message] at hc
      | other =>
        simp only [streamLoop, handle_stream_message] at hc ⊢
        exact ih _ hs hc

/-- Counterexample to claim C5: delivering a `completed` frame to the
realtime handler after the cancelled run is not discarded — it flips
the snapshot to `in_progress = false`, `progress = 1.0` (the Completed
shape), mutating the post-cancellation state. -/
theorem completed_frame_after_cancel_cex :
    (handle_message WsMsg.completed cancelledRun.1).generation.in_progress
      = false ∧
    (handle_message WsMsg.completed cancelledRun.1).generation.progress = 1 ∧
    (handle_message WsMsg.completed cancelledRun.1).generation ≠
      cancelledRun.1.generation := by
  refine ⟨rfl, rfl, fun h => ?_⟩
  exact absurd (congrArg GenerationState.in_progress h) (by decide)

/-- Claim C5 as amended: after a cancelled `generate()` run the store is
still marked in progress (cancellation performed no transition), and a
subsequently delivered `completed` frame is processed normally by the
realtime handler — `finish_generation` is applied, so the status
becomes Completed rather than remaining a cancelled one. -/
theorem completed_frame_after_cancel_applies (events : List GrpcEvent)
    (s st : AppState) (o : GenOutcome)
    (h : generate events s = (st, o)) (hc : o = GenOutcome.cancelled) :
    st.generation.in_progress = true ∧
    (handle_message WsMsg.completed st).generation =
      { st.generation with in_progress := false, progress := 1 } := by
  subst hc
  have hfst : (streamLoop events (start_generation s)).1 = st := by
    rw [show streamLoop events (start_generation s) = (st, GenOutcome.cancelled) from h]
  have hsnd : (streamLoop events (start_generation s)).2 = GenOutcome.cancelled := by
    rw [show streamLoop events (start_generation s) = (st, GenOutcome.cancelled) from h]
  have hin : (streamLoop events (start_generation s)).1.generation.in_progress = true :=
    streamLoop_cancelled_in_progress events (start_generation s) rfl hsnd
  rw [hfst] at hin
  exact ⟨hin, rfl⟩

/-- Witness for `completed_frame_after_cancel_applies`: the run that is
cancelled at its first await point. -/
theorem completed_frame_after_cancel_applies_witness :
    (start_generation initialAppState).generation.in_progress = true ∧
    (handle_message WsMsg.completed (start_generation initialAppState)).generation =
      { (start_generation initialAppState).generation with
        in_progress := false, progress := 1 } :=
  completed_frame_after_cancel_applies [GrpcEvent.cancel] initialAppState
    (start_generation initialAppState) GenOutcome.cancelled rfl rfl

/-- Claim C6: from any snapshot, a valid progress frame with value 0.4
followed by a completed frame, dispatched through the realtime
channel's message handler, leaves the final snapshot Completed
(`in_progress = false`) with progress exactly 1.0. -/
theorem progress_then_completed_snapshot (s : AppState) :
    (handle_message WsMsg.completed
        (handle_message (WsMsg.progress (some (2/5))) s)).generation.in_progress
      = false ∧
    (handle_message WsMsg.completed
        (handle_message (WsMsg.progress (some (2/5))) s)).generation.progress
      = 1 :=
  ⟨rfl, rfl⟩

/-- Counterexample to claim C7: after the mutation sequence
`failGeneration "boom"; completeGeneration` the spec-level status is
Completed, not Failed, yet `last_error` still holds `"boom"` —
`finish_generation` does not clear the error field. -/
theorem last_error_survives_completion_cex :
    statusAfterOps [GenOp.fail "boom", GenOp.finish] = GenStatus.Completed ∧
    statusAfterOps [GenOp.fail "boom", GenOp.finish] ≠ GenStatus.Failed ∧
    (applyGenOps [GenOp.fail "boom", GenOp.finish]
        initialAppState).generation.last_error = some "boom" := by
  decide

/-- Each generation-domain mutation preserves the guard that a recorded
error implies no job marked in progress. -/
theorem applyGenOp_preserves_lastErrorGuarded (op : GenOp) (s : AppState)
    (h : lastErrorGuarded s) : lastErrorGuarded (applyGenOp op s) := by
  cases op with
  | start => intro hne; exact absurd rfl hne
  | update value => intro hne; exact h hne
  | finish => intro hne; rfl
  | fail error => intro hne; rfl

/-- The guard holds after any mutation sequence from a state where it
holds. -/
theorem applyGenOps_preserves_lastErrorGuarded (ops : List GenOp)
    (s : AppState) (h : lastErrorGuarded s) :
    lastErrorGuarded (applyGenOps ops s) := by
  induction ops generalizing s with
  | nil => exact h
  | cons op rest ih =>
    exact ih (applyGenOp op s) (applyGenOp_preserves_lastErrorGuarded op s h)

/-- Claim C7 as amended: over every mutation sequence from the initial
state, a non-empty `last_error` implies the job is not marked in
progress (`in_progress = false`); but `finish_generation` does not
clear `last_error`, so a non-empty error can coexist with the Completed
status and the implication cannot be strengthened to the Failed status. -/
theorem last_error_implies_not_in_progress (ops : List GenOp)
    (h : (applyGenOps ops initialAppState).generation.last_error ≠ none) :
    (applyGenOps ops initialAppState).generation.in_progress = false :=
  applyGenOps_preserves_lastErrorGuarded ops initialAppState
    (fun hne => absurd rfl hne) h

/-- Witness for `last_error_implies_not_in_progress`: a single failing
mutation. -/
theorem last_error_implies_not_in_progress_witness :
    (applyGenOps [GenOp.fail "e"] initialAppState).generation.in_progress
      = false :=
  last_error_implies_not_in_progress [GenOp.fail "e"] (by decide)

/-- A successful exchange iteration just replaces the access token and
continues the loop. -/
theorem refresh_loop_ok_step (tok : String) (rest : List ExchangeResult)
    (st : AuthBridgeState) (h : tokenFalsy st.refresh_token = false) :
    refresh_loop (ExchangeResult.ok tok :: rest) st =
      refresh_loop rest { st with access_token := some tok } := by
  simp [refresh_loop, h]

/-- A failing exchange iteration emits one logout, clears the auth
state, and ignores the remaining outcomes. -/
theorem refresh_loop_err_step (m : String) (rest : List ExchangeResult)
    (st : AuthBridgeState) (h : tokenFalsy st.refresh_token = false) :
    refresh_loop (ExchangeResult.err m :: rest) st =
      clear_auth_state { st with logout_events := st.logout_events + 1 } := by
  simp [refresh_loop, h]

/-- Claim C8: when the exchanges before the failure all succeed, the
refresh loop on reaching the failing exchange publishes exactly one
logout event, clears both stored credentials (and the authenticated
flag), and terminates without consuming any outcome scheduled after the
failure — no retry. -/
theorem refresh_failure_single_logout_terminal (pre post : List ExchangeResult)
    (m : String) (st : AuthBridgeState) (rt : String)
    (hrt : st.refresh_token = some rt) (hne : rt ≠ "")
    (hpre : ∀ o ∈ pre, ∃ tok, o = ExchangeResult.ok tok) :
    refresh_loop (pre ++ ExchangeResult.err m :: post) st =
      refresh_loop (pre ++ [ExchangeResult.err m]) st ∧
    (refresh_loop (pre ++ ExchangeResult.err m :: post) st).access_token
      = none ∧
    (refresh_loop (pre ++ ExchangeResult.err m :: post) st).refresh_token
      = none ∧
    (refresh_loop (pre ++ ExchangeResult.err m :: post) st).app.user.authenticated
      = false ∧
    (refresh_loop (pre ++ ExchangeResult.err m :: post) st).logout_events
      = st.logout_events + 1 := by
  induction pre generalizing st with
  | nil =>
    have hf : tokenFalsy st.refresh_token = false := by
      rw [hrt]; simpa [tokenFalsy] using hne
    simp only [List.nil_append]
    rw [refresh_loop_err_step m post st hf, refresh_loop_err_step m [] st hf]
    exact ⟨rfl, rfl, rfl, rfl, rfl⟩
  | cons o pre2 ih =>
    obtain ⟨tok, rfl⟩ := hpre o (List.mem_cons_self o pre2)
    have hf : tokenFalsy st.refresh_token = false := by
      rw [hrt]; simpa [tokenFalsy] using hne
    simp only [List.cons_append]
    rw [refresh_loop_ok_step tok (pre2 ++ ExchangeResult.err m :: post) st hf,
        refresh_loop_ok_step tok (pre2 ++ [ExchangeResult.err m]) st hf]
    exact ih { st with access_token := some tok } hrt
      (fun o2 ho2 => hpre o2 (List.mem_cons_of_mem _ ho2))

/-- Witness for `refresh_failure_single_logout_terminal`: one
successful refresh, then a failing one, with a further outcome
scheduled that is never consumed. -/
theorem refresh_failure_single_logout_terminal_witness :
    refresh_loop ([ExchangeResult.ok "t2"] ++
        ExchangeResult.err "down" :: [ExchangeResult.ok "t3"]) witnessAuthState =
      refresh_loop ([ExchangeResult.ok "t2"] ++ [ExchangeResult.err "down"])
        witnessAuthState ∧
    (refresh_loop ([ExchangeResult.ok "t2"] ++
        ExchangeResult.err "down" :: [ExchangeResult.ok "t3"])
        witnessAuthState).access_token = none ∧
    (refresh_loop ([ExchangeResult.ok "t2"] ++
        ExchangeResult.err "down" :: [ExchangeResult.ok "t3"])
        witnessAuthState).refresh_token = none ∧
    (refresh_loop ([ExchangeResult.ok "t2"] ++
        ExchangeResult.err "down" :: [ExchangeResult.ok "t3"])
        witnessAuthState).app.user.authenticated = false ∧
    (refresh_loop ([ExchangeResult.ok "t2"] ++
        ExchangeResult.err "down" :: [ExchangeResult.ok "t3"])
        witnessAuthState).logout_events = witnessAuthState.logout_events + 1 :=
  refresh_failure_single_logout_terminal [ExchangeResult.ok "t2"]
    [ExchangeResult.ok "t3"] "down" witnessAuthState "r1" rfl (by decide)
    (by intro o ho; rw [List.mem_singleton] at ho; exact ⟨"t2", ho⟩)

/-- Claim C9: every generation-domain mutation leaves the `user`,
`project`, `backend` and `ui_flags` sub-records unchanged — only the
`generation` sub-record is replaced. -/
theorem gen_mutation_frame (op : GenOp) (s : AppState) :
    (applyGenOp op s).user = s.user ∧
    (applyGenOp op s).project = s.project ∧
    (applyGenOp op s).backend = s.backend ∧
    (applyGenOp op s).ui_flags = s.ui_flags := by
  cases op <;> exact ⟨rfl, rfl, rfl, rfl⟩

/-- Claim C10: a `progress` frame lacking its `value` field is not
dropped — the handler dispatches it with the default 0.0, so while a
job is in progress it resets the stored progress to 0.0 (leaving the
job marked in progress). -/
theorem progress_frame_missing_value_resets (s : AppState)
    (h : s.generation.in_progress = true) :
    (handle_message (WsMsg.progress none) s).generation.progress = 0 ∧
    (handle_message (WsMsg.progress none) s).generation.in_progress = true :=
  ⟨rfl, h⟩

/-- Witness for `progress_frame_missing_value_resets`: the in-flight
snapshot at progress 0.3 resets to 0.0. -/
theorem progress_frame_missing_value_resets_witness :
    (handle_message (WsMsg.progress none) streamingSnapshot).generation.progress
      = 0 ∧
    (handle_message (WsMsg.progress none) streamingSnapshot).generation.in_progress
      = true :=
  progress_frame_missing_value_resets streamingSnapshot rfl

end Nosis
